import Mathlib

/-!
# Rental Yield & ROI Optimizer — verification of the computation core

Shallow embedding of the financial computation core of `src/app.py`
(the module-level arithmetic at lines 150–215 and the comparison /
grading logic at lines 316–368) over the rationals `ℚ`.

Each definition mirrors one assignment of the source; names follow the
Python variables.  Divisions that the source guards (`... if d > 0 else 0`)
are embedded with the same guard, so the guarded branch never divides by
zero.  The one unguarded division of the core (`ltv_ratio`, line 348,
dividing by `price` with no guard) is embedded through `pydiv`, which
returns `none` exactly when Python would raise `ZeroDivisionError`.
-/

/-- The input record: one field per sidebar input of `src/app.py`
(lines 23–148).  `mortgage_years` is a positive integer in the UI;
the engine receives it as a natural number. -/
structure Inputs where
  price : ℚ
  rent_long : ℚ
  rent_short : ℚ
  occupancy_rate : ℚ
  expenses : ℚ
  initial_investment : ℚ
  mortgage_amount : ℚ
  interest_rate : ℚ
  mortgage_years : ℕ
  income_tax_rate : ℚ
  property_tax_rate : ℚ
  annual_maintenance_rate : ℚ
  insurance_cost : ℚ
deriving DecidableEq

namespace App

/-- Line 154: `monthly_rate = (interest_rate / 100) / 12`. -/
def monthly_rate (i : Inputs) : ℚ := i.interest_rate / 100 / 12

/-- Line 155: `num_payments = mortgage_years * 12`. -/
def num_payments (i : Inputs) : ℕ := i.mortgage_years * 12

/-- Lines 153–161: monthly mortgage payment.  Zero when no mortgage;
amortization formula when the monthly rate is positive; straight-line
division otherwise. -/
def monthly_mortgage (i : Inputs) : ℚ :=
  if 0 < i.mortgage_amount then
    if 0 < monthly_rate i then
      i.mortgage_amount * (monthly_rate i * (1 + monthly_rate i) ^ num_payments i) /
        ((1 + monthly_rate i) ^ num_payments i - 1)
    else
      i.mortgage_amount / (num_payments i : ℚ)
  else 0

/-- Line 164: `annual_property_tax = (property_tax_rate / 100) * price`. -/
def annual_property_tax (i : Inputs) : ℚ := (i.property_tax_rate / 100) * i.price

/-- Line 165: `annual_maintenance = (annual_maintenance_rate / 100) * price`. -/
def annual_maintenance (i : Inputs) : ℚ := (i.annual_maintenance_rate / 100) * i.price

/-- Line 166: `annual_mortgage_payments = monthly_mortgage * 12`. -/
def annual_mortgage_payments (i : Inputs) : ℚ := monthly_mortgage i * 12

/-- Line 167: `annual_insurance = insurance_cost`. -/
def annual_insurance (i : Inputs) : ℚ := i.insurance_cost

/-- Line 170: total annual costs, shared by both strategies. -/
def total_annual_costs (i : Inputs) : ℚ :=
  i.expenses * 12 + annual_property_tax i + annual_maintenance i +
    annual_mortgage_payments i + annual_insurance i

/-- Lines 174/186: net income before tax, as a function of a strategy's
gross annual income and the shared total annual costs. -/
def net_before_tax (gross costs : ℚ) : ℚ := gross - costs

/-- Lines 175/187: income tax owed, clamped at zero from below. -/
def income_tax (gross costs rate : ℚ) : ℚ :=
  max 0 (net_before_tax gross costs * (rate / 100))

/-- Lines 176/188: net income after tax. -/
def net_after_tax (gross costs rate : ℚ) : ℚ :=
  net_before_tax gross costs - income_tax gross costs rate

/-- Lines 177/189 etc.: a yield percentage, guarded by `price > 0`. -/
def yield_pct (amount price : ℚ) : ℚ := if 0 < price then amount / price * 100 else 0

/-- Lines 179/191 etc.: a return percentage, guarded by `initial_investment > 0`. -/
def roi_pct (amount invested : ℚ) : ℚ :=
  if 0 < invested then amount / invested * 100 else 0

/-- Line 173: `annual_long_gross = rent_long * 12`. -/
def annual_long_gross (i : Inputs) : ℚ := i.rent_long * 12

/-- Line 174. -/
def annual_long_net_before_tax (i : Inputs) : ℚ :=
  net_before_tax (annual_long_gross i) (total_annual_costs i)

/-- Line 175. -/
def income_tax_long (i : Inputs) : ℚ :=
  income_tax (annual_long_gross i) (total_annual_costs i) i.income_tax_rate

/-- Line 176. -/
def annual_long_after_tax (i : Inputs) : ℚ :=
  net_after_tax (annual_long_gross i) (total_annual_costs i) i.income_tax_rate

/-- Line 177. -/
def yield_long_gross (i : Inputs) : ℚ := yield_pct (annual_long_gross i) i.price

/-- Line 178. -/
def yield_long_net (i : Inputs) : ℚ := yield_pct (annual_long_after_tax i) i.price

/-- Line 179. -/
def roi_long (i : Inputs) : ℚ := roi_pct (annual_long_after_tax i) i.initial_investment

/-- Line 180: `cash_flow_long = annual_long_after_tax`. -/
def cash_flow_long (i : Inputs) : ℚ := annual_long_after_tax i

/-- Line 183: fixed 30-day month for the short-term occupancy model. -/
def days_per_month : ℚ := 30

/-- Line 184: `monthly_nights_booked = (occupancy_rate / 100) * days_per_month`. -/
def monthly_nights_booked (i : Inputs) : ℚ := (i.occupancy_rate / 100) * days_per_month

/-- Line 185: `annual_short_gross = rent_short * monthly_nights_booked * 12`. -/
def annual_short_gross (i : Inputs) : ℚ := i.rent_short * monthly_nights_booked i * 12

/-- Line 186. -/
def annual_short_net_before_tax (i : Inputs) : ℚ :=
  net_before_tax (annual_short_gross i) (total_annual_costs i)

/-- Line 187. -/
def income_tax_short (i : Inputs) : ℚ :=
  income_tax (annual_short_gross i) (total_annual_costs i) i.income_tax_rate

/-- Line 188. -/
def annual_short_after_tax (i : Inputs) : ℚ :=
  net_after_tax (annual_short_gross i) (total_annual_costs i) i.income_tax_rate

/-- Line 189. -/
def yield_short_gross (i : Inputs) : ℚ := yield_pct (annual_short_gross i) i.price

/-- Line 190. -/
def yield_short_net (i : Inputs) : ℚ := yield_pct (annual_short_after_tax i) i.price

/-- Line 191. -/
def roi_short (i : Inputs) : ℚ := roi_pct (annual_short_after_tax i) i.initial_investment

/-- Line 192: `cash_flow_short = annual_short_after_tax`. -/
def cash_flow_short (i : Inputs) : ℚ := annual_short_after_tax i

/-- Line 195 (and recomputed identically at line 340):
`best_cash_flow = max(cash_flow_long, cash_flow_short)`. -/
def best_cash_flow (i : Inputs) : ℚ := max (cash_flow_long i) (cash_flow_short i)

/-- Line 196: payback period.  `none` models the `float('inf')` sentinel the
source returns when the best cash flow is not positive. -/
def breakeven_years (i : Inputs) : Option ℚ :=
  if 0 < best_cash_flow i then some (i.initial_investment / best_cash_flow i) else none

/-- One iteration of the loop at lines 203–207 on the state
`(annual_principal_payment, remaining_balance)`. -/
def amort_step (r mm : ℚ) (st : ℚ × ℚ) : ℚ × ℚ :=
  (st.1 + (mm - st.2 * r), st.2 - (mm - st.2 * r))

/-- The loop at lines 203–207 run for `k` months from an initial balance. -/
def amort (r mm bal : ℚ) : ℕ → ℚ × ℚ
  | 0 => (0, bal)
  | k + 1 => amort_step r mm (amort r mm bal k)

/-- Lines 199–209: principal paid in the first year — a 12-month simulation
when there is a mortgage at a positive monthly rate, otherwise the annual
payments capped at the mortgage amount. -/
def annual_principal_payment (i : Inputs) : ℚ :=
  if 0 < i.mortgage_amount ∧ 0 < monthly_rate i then
    (amort (monthly_rate i) (monthly_mortgage i) i.mortgage_amount 12).1
  else
    min (annual_mortgage_payments i) i.mortgage_amount

/-- Line 212. -/
def total_return_long (i : Inputs) : ℚ := annual_long_after_tax i + annual_principal_payment i

/-- Line 213. -/
def total_return_short (i : Inputs) : ℚ := annual_short_after_tax i + annual_principal_payment i

/-- Line 214. -/
def total_roi_long (i : Inputs) : ℚ := roi_pct (total_return_long i) i.initial_investment

/-- Line 215. -/
def total_roi_short (i : Inputs) : ℚ := roi_pct (total_return_short i) i.initial_investment

/-- Outcome of the recommendation block (lines 319–334): short-term wins,
long-term wins, or the tie branch ("similar profitability"). -/
inductive Strategy where
  | short
  | long
  | tie
deriving DecidableEq

/-- Line 316: `yield_difference = abs(yield_short_net - yield_long_net)`. -/
def yield_difference (i : Inputs) : ℚ := |yield_short_net i - yield_long_net i|

/-- Line 317: `income_difference = abs(annual_short_after_tax - annual_long_after_tax)`. -/
def income_difference (i : Inputs) : ℚ := |annual_short_after_tax i - annual_long_after_tax i|

/-- Lines 319–334: which branch of the recommendation block runs. -/
def recommendation (i : Inputs) : Strategy :=
  if yield_long_net i < yield_short_net i then .short
  else if yield_short_net i < yield_long_net i then .long
  else .tie

/-- Lines 323/329: the cash-flow figure printed inside the winning branch
(`cash_flow_short` in the short branch, `cash_flow_long` otherwise). -/
def winner_cash_flow (i : Inputs) : ℚ :=
  if yield_long_net i < yield_short_net i then cash_flow_short i else cash_flow_long i

/-- Line 339: `best_strategy = 'Short-term' if yield_short_net > yield_long_net
else 'Long-term'` — note the `else` arm never reports a tie. -/
def best_strategy (i : Inputs) : Strategy :=
  if yield_long_net i < yield_short_net i then .short else .long

/-- Line 341: `best_roi = max(roi_long, roi_short)`. -/
def best_roi (i : Inputs) : ℚ := max (roi_long i) (roi_short i)

/-- Python's true division: `none` models `ZeroDivisionError`. -/
def pydiv (a b : ℚ) : Option ℚ := if b = 0 then none else some (a / b)

/-- Line 348, executed only under `mortgage_amount > 0` (line 346):
`ltv_ratio = (mortgage_amount / price) * 100`.  The division by `price`
carries no guard, hence the `pydiv` embedding. -/
def ltv_ratio (i : Inputs) : Option ℚ :=
  (pydiv i.mortgage_amount i.price).map (fun q => q * 100)

/-- The investment grade labels of lines 357–368. -/
inductive Grade where
  | excellent
  | good
  | moderate
  | poor
deriving DecidableEq

/-- Lines 357–368: grade from the best cash-on-cash return. -/
def grade (i : Inputs) : Grade :=
  if 15 ≤ best_roi i then .excellent
  else if 10 ≤ best_roi i then .good
  else if 5 ≤ best_roi i then .moderate
  else .poor

/-! ## Concrete inputs used by the claims -/

/-- The worked example of the spec: price 300000, long rent 1200, nightly
rate 80, occupancy 65 %, expenses 400, initial investment 60000, mortgage
240000 at 3.5 % over 30 years, income tax 28 %, property tax 0.8 %,
maintenance 1.5 %, insurance 800. -/
def exC1 : Inputs :=
  ⟨300000, 1200, 80, 65, 400, 60000, 240000, 7/2, 30, 28, 4/5, 3/2, 800⟩

/-! ## C1: the spec's worked example -/

/-- The mortgage payment of the worked example in closed form. -/
theorem exC1_monthly_mortgage :
    monthly_mortgage exC1 =
      240000 * ((7/2400) * (1 + 7/2400) ^ 360) / ((1 + 7/2400) ^ 360 - 1) := by
  simp only [monthly_mortgage, monthly_rate, num_payments, exC1]
  norm_num

/-- C1: on the spec's worked example the computation produces a monthly
mortgage payment within 0.01 of 1077.71, a long-term gross annual income of
exactly 14400, a short-term gross annual income of exactly 18720, total
annual costs within 0.5 of 25432.5, a long-term net before tax within 0.5
of −11032.5, a long-term income tax of exactly 0, and a long-term net after
tax equal to the net before tax. -/
theorem c1_example_values :
    |monthly_mortgage exC1 - 107771/100| < 1/100 ∧
    annual_long_gross exC1 = 14400 ∧
    annual_short_gross exC1 = 18720 ∧
    |total_annual_costs exC1 - 50865/2| < 1/2 ∧
    |annual_long_net_before_tax exC1 - (-(22065/2))| < 1/2 ∧
    income_tax_long exC1 = 0 ∧
    annual_long_after_tax exC1 = annual_long_net_before_tax exC1 := by
  have hmm := exC1_monthly_mortgage
  have hlg : annual_long_gross exC1 = 14400 := by
    simp only [annual_long_gross, exC1]; norm_num
  have hsg : annual_short_gross exC1 = 18720 := by
    simp only [annual_short_gross, monthly_nights_booked, days_per_month, exC1]; norm_num
  have htot : total_annual_costs exC1 = 12500 + monthly_mortgage exC1 * 12 := by
    simp only [total_annual_costs, annual_property_tax, annual_maintenance,
      annual_mortgage_payments, annual_insurance, exC1]
    ring
  have hmb : |monthly_mortgage exC1 - 107771/100| < 1/100 := by
    rw [hmm, abs_lt]; constructor <;> norm_num
  have htb : |total_annual_costs exC1 - 50865/2| < 1/2 := by
    rw [htot, hmm, abs_lt]; constructor <;> norm_num
  have hnbt : annual_long_net_before_tax exC1 = 14400 - total_annual_costs exC1 := by
    rw [annual_long_net_before_tax, net_before_tax, hlg]
  have hnb : |annual_long_net_before_tax exC1 - (-(22065/2))| < 1/2 := by
    rw [hnbt, htot, hmm, abs_lt]; constructor <;> norm_num
  have hneg : annual_long_net_before_tax exC1 < 0 := by
    rcases abs_lt.mp hnb with ⟨h₁, h₂⟩
    linarith
  have htax : income_tax_long exC1 = 0 := by
    rw [income_tax_long, income_tax]
    apply max_eq_left
    have hrate : exC1.income_tax_rate / 100 = 28/100 := by norm_num [exC1]
    have hb : net_before_tax (annual_long_gross exC1) (total_annual_costs exC1) < 0 := hneg
    rw [hrate]
    exact mul_nonpos_of_nonpos_of_nonneg (le_of_lt hb) (by norm_num)
  have hafter : annual_long_after_tax exC1 = annual_long_net_before_tax exC1 := by
    have h : annual_long_after_tax exC1 =
        annual_long_net_before_tax exC1 - income_tax_long exC1 := rfl
    rw [h, htax, sub_zero]
  exact ⟨hmb, hlg, hsg, htb, hnb, htax, hafter⟩

/-! ## C2: behaviour on an exact yield tie -/

/-- An input on which both strategies earn the same gross income (no
mortgage, occupancy 50 %, so `80 * 15 * 12 = 1200 * 12`): the two net
yields coincide exactly. -/
def tieC2 : Inputs :=
  ⟨300000, 1200, 80, 50, 400, 60000, 0, 7/2, 30, 28, 4/5, 3/2, 800⟩

/-- On the tie input both strategies net 1368 after tax, so the two net
yields coincide. -/
theorem tieC2_yields_eq : yield_short_net tieC2 = yield_long_net tieC2 := by
  norm_num [yield_short_net, yield_long_net, yield_pct, annual_short_after_tax,
    annual_long_after_tax, net_after_tax, net_before_tax, income_tax,
    annual_short_gross, annual_long_gross, monthly_nights_booked, days_per_month,
    total_annual_costs, annual_property_tax, annual_maintenance,
    annual_mortgage_payments, annual_insurance, monthly_mortgage, tieC2, max_def]

/-- C2 counterexample: on `tieC2` the two net yields are exactly equal, yet
the summary's `best_strategy` (line 339) declares Long-term the best
strategy — the displayed pick is not reported as a tie. -/
theorem c2_tie_counterexample :
    yield_short_net tieC2 = yield_long_net tieC2 ∧
    best_strategy tieC2 = Strategy.long := by
  refine ⟨tieC2_yields_eq, ?_⟩
  rw [best_strategy, tieC2_yields_eq]
  simp [lt_irrefl]

/-- C2 amended: whenever the two net yields are exactly equal, the
recommendation block runs its tie branch ("similar profitability"), but
`best_strategy` (line 339) falls back to Long-term rather than reporting
the tie. -/
theorem c2_tie_behavior (i : Inputs)
    (h : yield_short_net i = yield_long_net i) :
    recommendation i = Strategy.tie ∧ best_strategy i = Strategy.long := by
  constructor
  · rw [recommendation, h]
    simp [lt_irrefl]
  · rw [best_strategy, h]
    simp [lt_irrefl]

/-- C2 witness: the amended theorem applied to the concrete tie input. -/
theorem c2_tie_behavior_witness :
    recommendation tieC2 = Strategy.tie ∧ best_strategy tieC2 = Strategy.long :=
  c2_tie_behavior tieC2 tieC2_yields_eq

/-! ## C3: division guards -/

/-- A degenerate input with `price = 0` but a positive mortgage: line 348
(`ltv_ratio`) is reached (its guard `mortgage_amount > 0` holds) and
divides by zero. -/
def exC3 : Inputs :=
  ⟨0, 1200, 80, 65, 400, 60000, 240000, 7/2, 30, 28, 4/5, 3/2, 800⟩

/-- C3 counterexample: with `price = 0` and `mortgage_amount = 240000 > 0`
the loan-to-value computation faults (its division by `price` is
unguarded), refuting the claim that no derived quantity is ever produced
by an unguarded division. -/
theorem c3_ltv_counterexample :
    0 < exC3.mortgage_amount ∧ ltv_ratio exC3 = none := by
  constructor
  · decide
  · decide

/-- C3 amended: all yield percentages are 0 when `price ≤ 0`, all
return-on-investment percentages are 0 when `initial_investment ≤ 0`
(those divisions are guarded), but the loan-to-value ratio divides by
`price` without a guard: it is only defined when `price ≠ 0`. -/
theorem c3_division_guards (i : Inputs) :
    (i.price ≤ 0 →
      yield_long_gross i = 0 ∧ yield_long_net i = 0 ∧
      yield_short_gross i = 0 ∧ yield_short_net i = 0) ∧
    (i.initial_investment ≤ 0 →
      roi_long i = 0 ∧ roi_short i = 0 ∧
      total_roi_long i = 0 ∧ total_roi_short i = 0) ∧
    (i.price ≠ 0 → ltv_ratio i = some (i.mortgage_amount / i.price * 100)) := by
  refine ⟨fun hp => ?_, fun hi => ?_, fun hp => ?_⟩
  · have h : ¬ 0 < i.price := not_lt.mpr hp
    refine ⟨?_, ?_, ?_, ?_⟩ <;>
      simp [yield_long_gross, yield_long_net, yield_short_gross, yield_short_net,
        yield_pct, h]
  · have h : ¬ 0 < i.initial_investment := not_lt.mpr hi
    refine ⟨?_, ?_, ?_, ?_⟩ <;>
      simp [roi_long, roi_short, total_roi_long, total_roi_short, roi_pct, h]
  · simp [ltv_ratio, pydiv, hp]

/-- C3 witness: the amended theorem applied to the degenerate input. -/
theorem c3_division_guards_witness :
    yield_long_gross exC3 = 0 ∧ yield_long_net exC3 = 0 ∧
    yield_short_gross exC3 = 0 ∧ yield_short_net exC3 = 0 :=
  (c3_division_guards exC3).1 (by decide)

/-! ## C4: payback period -/

/-- C4: the payback period is `initial_investment / best_cash_flow` when
the best cash flow is strictly positive, the `none` sentinel (Python's
`float('inf')`) when it is not, and — on the declared domain
`initial_investment > 0` — never a negative number. -/
theorem c4_payback (i : Inputs) :
    (0 < best_cash_flow i →
      breakeven_years i = some (i.initial_investment / best_cash_flow i)) ∧
    (best_cash_flow i ≤ 0 → breakeven_years i = none) ∧
    (0 < i.initial_investment →
      ∀ q : ℚ, breakeven_years i = some q → 0 < q) := by
  refine ⟨fun h => ?_, fun h => ?_, fun hi q hq => ?_⟩
  · rw [breakeven_years, if_pos h]
  · rw [breakeven_years, if_neg (not_lt.mpr h)]
  · rw [breakeven_years] at hq
    by_cases hb : 0 < best_cash_flow i
    · rw [if_pos hb, Option.some.injEq] at hq
      rw [← hq]
      exact div_pos hi hb
    · rw [if_neg hb] at hq
      exact absurd hq (Option.noConfusion)

/-- On the tie input the best annual cash flow is 1368. -/
theorem tieC2_best_cash_flow : best_cash_flow tieC2 = 1368 := by
  norm_num [best_cash_flow, cash_flow_long, cash_flow_short,
    annual_short_after_tax, annual_long_after_tax, net_after_tax, net_before_tax,
    income_tax, annual_short_gross, annual_long_gross, monthly_nights_booked,
    days_per_month, total_annual_costs, annual_property_tax, annual_maintenance,
    annual_mortgage_payments, annual_insurance, monthly_mortgage, tieC2, max_def]

/-- C4 witness: on `tieC2` both cash flows are 1368 > 0, so the payback is
the finite quotient. -/
theorem c4_payback_witness :
    0 < best_cash_flow tieC2 ∧
    breakeven_years tieC2 = some (tieC2.initial_investment / best_cash_flow tieC2) :=
  ⟨by rw [tieC2_best_cash_flow]; norm_num,
   (c4_payback tieC2).1 (by rw [tieC2_best_cash_flow]; norm_num)⟩

/-! ## C5: investment grade bands -/

/-- C5: the grade is assigned from the better cash-on-cash return with
inclusive lower bounds — ≥ 15 Excellent, [10, 15) Good, [5, 10) Moderate,
< 5 Poor — and a best return of exactly 5 is Moderate. -/
theorem c5_grade_bands (i : Inputs) :
    (15 ≤ best_roi i → grade i = Grade.excellent) ∧
    (10 ≤ best_roi i ∧ best_roi i < 15 → grade i = Grade.good) ∧
    (5 ≤ best_roi i ∧ best_roi i < 10 → grade i = Grade.moderate) ∧
    (best_roi i < 5 → grade i = Grade.poor) ∧
    (best_roi i = 5 → grade i = Grade.moderate) := by
  refine ⟨fun h => ?_, fun h => ?_, fun h => ?_, fun h => ?_, fun h => ?_⟩ <;>
    rw [grade]
  · rw [if_pos h]
  · rw [if_neg (by linarith [h.2]), if_pos h.1]
  · rw [if_neg (by linarith [h.2]), if_neg (by linarith [h.2]), if_pos h.1]
  · rw [if_neg (by linarith), if_neg (by linarith), if_neg (by linarith)]
  · rw [if_neg (by rw [h]; norm_num), if_neg (by rw [h]; norm_num),
      if_pos (by rw [h])]

/-- An input whose best cash-on-cash return is exactly 5: long-term gross
is 500 a year against zero costs and zero tax on an initial investment of
10000. -/
def exC5 : Inputs :=
  ⟨100000, 125/3, 0, 0, 0, 10000, 0, 0, 30, 0, 0, 0, 0⟩

/-- The best cash-on-cash return of `exC5` is exactly 5. -/
theorem exC5_best_roi : best_roi exC5 = 5 := by
  norm_num [best_roi, roi_long, roi_short, roi_pct, annual_long_after_tax,
    annual_short_after_tax, net_after_tax, net_before_tax, income_tax,
    annual_long_gross, annual_short_gross, monthly_nights_booked, days_per_month,
    total_annual_costs, annual_property_tax, annual_maintenance,
    annual_mortgage_payments, annual_insurance, monthly_mortgage, exC5, max_def]

/-- C5 witness: a best return of exactly 5 grades as Moderate. -/
theorem c5_grade_bands_witness :
    best_roi exC5 = 5 ∧ grade exC5 = Grade.moderate :=
  ⟨exC5_best_roi, (c5_grade_bands exC5).2.2.2.2 exC5_best_roi⟩

/-! ## C6/C7: mortgage amortization -/

/-- The principal accumulated by the loop is what left the balance:
after `k` months, `annual_principal_payment` so far equals the initial
balance minus the remaining balance. -/
theorem amort_acc (r mm bal : ℚ) (k : ℕ) :
    (amort r mm bal k).1 = bal - (amort r mm bal k).2 := by
  induction k with
  | zero => simp [amort]
  | succ k ih =>
      simp only [amort, amort_step]
      rw [ih]
      ring

/-- Closed form of the remaining balance after `k` months of the loop, for
a nonzero monthly rate. -/
theorem amort_bal (r mm bal : ℚ) (hr : r ≠ 0) (k : ℕ) :
    (amort r mm bal k).2 = bal * (1 + r) ^ k - mm * (((1 + r) ^ k - 1) / r) := by
  induction k with
  | zero => simp [amort]
  | succ k ih =>
      simp only [amort, amort_step, pow_succ]
      rw [ih]
      field_simp
      ring

/-- The monthly payment in closed form when the mortgage and the monthly
rate are positive. -/
theorem monthly_mortgage_pos_rate (i : Inputs) (hP : 0 < i.mortgage_amount)
    (hr : 0 < monthly_rate i) :
    monthly_mortgage i =
      i.mortgage_amount * (monthly_rate i * (1 + monthly_rate i) ^ num_payments i) /
        ((1 + monthly_rate i) ^ num_payments i - 1) := by
  rw [monthly_mortgage, if_pos hP, if_pos hr]

/-- C6: for a positive mortgage amount, a nonnegative annual interest rate
and a positive term, the monthly payment is strictly positive and the
principal paid in the first year never exceeds the mortgage amount. -/
theorem c6_mortgage_bounds (i : Inputs) (hP : 0 < i.mortgage_amount)
    (hr : 0 ≤ i.interest_rate) (ht : 0 < i.mortgage_years) :
    0 < monthly_mortgage i ∧ annual_principal_payment i ≤ i.mortgage_amount := by
  have hr0 : 0 ≤ monthly_rate i := by
    rw [monthly_rate]
    positivity
  have hn : num_payments i ≠ 0 := by
    rw [num_payments]
    omega
  rcases eq_or_lt_of_le hr0 with hz | hpos
  · -- monthly rate is zero: straight-line payment, capped principal
    have hnr : ¬ 0 < monthly_rate i := by rw [← hz]; exact lt_irrefl 0
    have hmm : monthly_mortgage i = i.mortgage_amount / (num_payments i : ℚ) := by
      rw [monthly_mortgage, if_pos hP, if_neg hnr]
    constructor
    · rw [hmm]
      apply div_pos hP
      exact_mod_cast Nat.pos_of_ne_zero hn
    · rw [annual_principal_payment, if_neg (by tauto)]
      exact min_le_right _ _
  · -- positive monthly rate: amortization formula and the 12-month loop
    have hx1 : 1 < (1 + monthly_rate i) ^ num_payments i :=
      one_lt_pow₀ (by linarith) hn
    have hxpos : 0 < (1 + monthly_rate i) ^ num_payments i - 1 := by linarith
    have hmm := monthly_mortgage_pos_rate i hP hpos
    have hmmpos : 0 < monthly_mortgage i := by
      rw [hmm]
      apply div_pos _ hxpos
      have : 0 < (1 + monthly_rate i) ^ num_payments i := by positivity
      positivity
    refine ⟨hmmpos, ?_⟩
    rw [annual_principal_payment, if_pos ⟨hP, hpos⟩,
      amort_acc (monthly_rate i) (monthly_mortgage i) i.mortgage_amount 12]
    have hbal : 0 ≤ (amort (monthly_rate i) (monthly_mortgage i) i.mortgage_amount 12).2 := by
      rw [amort_bal _ _ _ (ne_of_gt hpos) 12, hmm]
      set r := monthly_rate i with hrdef
      set P := i.mortgage_amount with hPdef
      set x := (1 + r) ^ num_payments i with hxdef
      set y := (1 + r) ^ (12 : ℕ) with hydef
      have hy1 : 1 ≤ y := one_le_pow₀ (by linarith)
      have hyx : y ≤ x := by
        rw [hydef, hxdef]
        refine pow_le_pow_right₀ (by linarith) ?_
        rw [num_payments]
        omega
      have hkey : P * (r * x) / (x - 1) * ((y - 1) / r) = P * x * (y - 1) / (x - 1) := by
        field_simp
        ring
      rw [hkey, sub_nonneg, div_le_iff₀ hxpos]
      nlinarith [mul_le_mul_of_nonneg_left hyx (le_of_lt hP)]
    linarith

/-- An input fully amortizing in one year: mortgage 4095 at a monthly rate
of 1 (annual 1200 %) over a 1-year term, so the payment is 4096 a month. -/
def exC6 : Inputs :=
  ⟨100000, 0, 0, 0, 0, 10000, 4095, 1200, 1, 0, 0, 0, 0⟩

/-- C6 witness: the bounds at the concrete input `exC6`. -/
theorem c6_mortgage_bounds_witness :
    0 < monthly_mortgage exC6 ∧ annual_principal_payment exC6 ≤ exC6.mortgage_amount :=
  c6_mortgage_bounds exC6 (by norm_num [exC6]) (by norm_num [exC6]) (by norm_num [exC6])

/-- C7: with a positive mortgage, a positive term and a zero annual
interest rate, the monthly payment is exactly the mortgage amount divided
by the number of payments, and the first-year principal is the annual
payment capped at the mortgage amount. -/
theorem c7_zero_rate (i : Inputs) (hP : 0 < i.mortgage_amount)
    (ht : 0 < i.mortgage_years) (hz : i.interest_rate = 0) :
    monthly_mortgage i = i.mortgage_amount / ((i.mortgage_years : ℚ) * 12) ∧
    annual_principal_payment i = min (12 * monthly_mortgage i) i.mortgage_amount := by
  have hr : monthly_rate i = 0 := by rw [monthly_rate, hz]; norm_num
  have hnr : ¬ 0 < monthly_rate i := by rw [hr]; exact lt_irrefl 0
  constructor
  · rw [monthly_mortgage, if_pos hP, if_neg hnr, num_payments]
    push_cast
    ring_nf
  · rw [annual_principal_payment, if_neg (by tauto), annual_mortgage_payments,
      mul_comm]

/-- A zero-rate input: mortgage 1200 over 10 years, so the payment is 10 a
month and the first-year principal is 120. -/
def exC7 : Inputs :=
  ⟨100000, 0, 0, 0, 0, 10000, 1200, 0, 10, 0, 0, 0, 0⟩

/-- C7 witness: the zero-rate formulas at the concrete input `exC7`. -/
theorem c7_zero_rate_witness :
    monthly_mortgage exC7 = exC7.mortgage_amount / ((exC7.mortgage_years : ℚ) * 12) ∧
    annual_principal_payment exC7 = min (12 * monthly_mortgage exC7) exC7.mortgage_amount :=
  c7_zero_rate exC7 (by norm_num [exC7]) (by norm_num [exC7]) (by norm_num [exC7])

/-! ## C8: the comparison is symmetric in the two strategies -/

/-- C8: when the input `j` exchanges the two gross annual incomes of the
input `i` (keeping costs, tax rate and price), the recommendation's winner
is exchanged, ties stay ties, and the absolute yield and income deltas are
unchanged. -/
theorem c8_swap_symmetry (i j : Inputs)
    (hl : annual_long_gross j = annual_short_gross i)
    (hs : annual_short_gross j = annual_long_gross i)
    (hc : total_annual_costs j = total_annual_costs i)
    (ht : j.income_tax_rate = i.income_tax_rate)
    (hp : j.price = i.price) :
    (recommendation i = Strategy.short ↔ recommendation j = Strategy.long) ∧
    (recommendation i = Strategy.long ↔ recommendation j = Strategy.short) ∧
    (recommendation i = Strategy.tie ↔ recommendation j = Strategy.tie) ∧
    yield_difference j = yield_difference i ∧
    income_difference j = income_difference i := by
  have hal : annual_long_after_tax j = annual_short_after_tax i := by
    rw [annual_long_after_tax, annual_short_after_tax, hl, hc, ht]
  have has : annual_short_after_tax j = annual_long_after_tax i := by
    rw [annual_short_after_tax, annual_long_after_tax, hs, hc, ht]
  have hyl : yield_long_net j = yield_short_net i := by
    rw [yield_long_net, yield_short_net, hal, hp]
  have hys : yield_short_net j = yield_long_net i := by
    rw [yield_short_net, yield_long_net, has, hp]
  have hrecj : recommendation j =
      if yield_short_net i < yield_long_net i then Strategy.short
      else if yield_long_net i < yield_short_net i then Strategy.long
      else Strategy.tie := by
    rw [recommendation, hyl, hys]
  have hyd : yield_difference j = yield_difference i := by
    simp only [yield_difference]
    rw [hyl, hys, abs_sub_comm]
  have hid : income_difference j = income_difference i := by
    simp only [income_difference]
    rw [hal, has, abs_sub_comm]
  refine ⟨?_, ?_, ?_, hyd, hid⟩ <;>
    rw [hrecj, recommendation] <;>
      rcases lt_trichotomy (yield_long_net i) (yield_short_net i) with h | h | h <;>
        first
        | simp [h, asymm h]
        | simp [h]

/-- A comparison input: long gross 12000, short gross 14400 a year
(no mortgage). -/
def exC8a : Inputs :=
  ⟨300000, 1000, 50, 80, 400, 60000, 0, 7/2, 30, 28, 4/5, 3/2, 800⟩

/-- `exC8a` with the two gross incomes exchanged: long gross 14400, short
gross 12000 a year. -/
def exC8b : Inputs :=
  ⟨300000, 1200, 125/3, 80, 400, 60000, 0, 7/2, 30, 28, 4/5, 3/2, 800⟩

/-- C8 witness: the symmetry theorem applied to the concrete pair. -/
theorem c8_swap_symmetry_witness :
    (recommendation exC8a = Strategy.short ↔ recommendation exC8b = Strategy.long) ∧
    (recommendation exC8a = Strategy.long ↔ recommendation exC8b = Strategy.short) ∧
    (recommendation exC8a = Strategy.tie ↔ recommendation exC8b = Strategy.tie) ∧
    yield_difference exC8b = yield_difference exC8a ∧
    income_difference exC8b = income_difference exC8a :=
  c8_swap_symmetry exC8a exC8b
    (by norm_num [annual_long_gross, annual_short_gross, monthly_nights_booked,
      days_per_month, exC8a, exC8b])
    (by norm_num [annual_long_gross, annual_short_gross, monthly_nights_booked,
      days_per_month, exC8a, exC8b])
    (by norm_num [total_annual_costs, annual_property_tax, annual_maintenance,
      annual_mortgage_payments, annual_insurance, monthly_mortgage, exC8a, exC8b])
    (by norm_num [exC8a, exC8b])
    (by norm_num [exC8a, exC8b])

/-! ## C9: net yield orders the strategies exactly as net cash flow -/

/-- C9: with a positive price, the short-term net yield exceeds the
long-term one exactly when the short-term net cash flow does; the winning
strategy therefore has the strictly greater cash flow, and the cash-flow
figure printed in the winning branch is `max(cash_flow_long,
cash_flow_short)`. -/
theorem c9_yield_orders_cash_flow (i : Inputs) (hp : 0 < i.price) :
    (yield_long_net i < yield_short_net i ↔ cash_flow_long i < cash_flow_short i) ∧
    (recommendation i = Strategy.short →
      cash_flow_long i < cash_flow_short i ∧ winner_cash_flow i = best_cash_flow i) ∧
    (recommendation i = Strategy.long →
      cash_flow_short i < cash_flow_long i ∧ winner_cash_flow i = best_cash_flow i) := by
  have hiff : yield_long_net i < yield_short_net i ↔
      cash_flow_long i < cash_flow_short i := by
    rw [yield_long_net, yield_short_net, yield_pct, yield_pct, if_pos hp, if_pos hp,
      cash_flow_long, cash_flow_short,
      mul_lt_mul_right (show (0:ℚ) < 100 by norm_num), div_lt_div_iff_of_pos_right hp]
  have hiff' : yield_short_net i < yield_long_net i ↔
      cash_flow_short i < cash_flow_long i := by
    rw [yield_long_net, yield_short_net, yield_pct, yield_pct, if_pos hp, if_pos hp,
      cash_flow_long, cash_flow_short,
      mul_lt_mul_right (show (0:ℚ) < 100 by norm_num), div_lt_div_iff_of_pos_right hp]
  refine ⟨hiff, fun h => ?_, fun h => ?_⟩
  · have hlt : yield_long_net i < yield_short_net i := by
      by_contra hn
      rw [recommendation, if_neg hn] at h
      by_cases h2 : yield_short_net i < yield_long_net i
      · rw [if_pos h2] at h
        exact Strategy.noConfusion h
      · rw [if_neg h2] at h
        exact Strategy.noConfusion h
    have hcf := hiff.mp hlt
    exact ⟨hcf, by
      rw [winner_cash_flow, if_pos hlt, best_cash_flow, max_eq_right (le_of_lt hcf)]⟩
  · have hlt : yield_short_net i < yield_long_net i := by
      rw [recommendation] at h
      by_cases h1 : yield_long_net i < yield_short_net i
      · rw [if_pos h1] at h
        exact Strategy.noConfusion h
      · rw [if_neg h1] at h
        by_cases h2 : yield_short_net i < yield_long_net i
        · exact h2
        · rw [if_neg h2] at h
          exact Strategy.noConfusion h
    have hcf := hiff'.mp hlt
    exact ⟨hcf, by
      rw [winner_cash_flow, if_neg (asymm hlt), best_cash_flow,
        max_eq_left (le_of_lt hcf)]⟩

/-- C9 witness: the invariant at the concrete input `exC8a`. -/
theorem c9_yield_orders_cash_flow_witness :
    (yield_long_net exC8a < yield_short_net exC8a ↔
      cash_flow_long exC8a < cash_flow_short exC8a) ∧
    (recommendation exC8a = Strategy.short →
      cash_flow_long exC8a < cash_flow_short exC8a ∧
      winner_cash_flow exC8a = best_cash_flow exC8a) ∧
    (recommendation exC8a = Strategy.long →
      cash_flow_short exC8a < cash_flow_long exC8a ∧
      winner_cash_flow exC8a = best_cash_flow exC8a) :=
  c9_yield_orders_cash_flow exC8a (by norm_num [exC8a])

/-! ## C10: after-tax cash flow is monotone in gross income -/

/-- C10: for a tax rate between 0 and 100 the net-after-tax figure is
monotone non-decreasing in gross income; at a rate above 100 (here 200 %)
monotonicity fails: raising the gross income from 0 to 100 lowers the
after-tax figure. -/
theorem c10_after_tax_monotone :
    (∀ costs rate g₁ g₂ : ℚ, 0 ≤ rate → rate ≤ 100 → g₁ ≤ g₂ →
      net_after_tax g₁ costs rate ≤ net_after_tax g₂ costs rate) ∧
    net_after_tax 100 0 200 < net_after_tax 0 0 200 := by
  constructor
  · intro costs rate g₁ g₂ h0 h100 hg
    simp only [net_after_tax, income_tax, net_before_tax]
    have hb : g₁ - costs ≤ g₂ - costs := by linarith
    have ht0 : 0 ≤ rate / 100 := by positivity
    have ht1 : rate / 100 ≤ 1 := (div_le_one (by norm_num)).mpr h100
    rcases le_or_lt 0 (g₁ - costs) with h1 | h1
    · have h2 : 0 ≤ g₂ - costs := le_trans h1 hb
      rw [max_eq_right (mul_nonneg h1 ht0), max_eq_right (mul_nonneg h2 ht0)]
      nlinarith [mul_nonneg (sub_nonneg.mpr hb) (sub_nonneg.mpr ht1)]
    · rcases le_or_lt 0 (g₂ - costs) with h2 | h2
      · rw [max_eq_left (by nlinarith : (g₁ - costs) * (rate / 100) ≤ 0),
          max_eq_right (mul_nonneg h2 ht0)]
        nlinarith [mul_nonneg h2 (sub_nonneg.mpr ht1)]
      · rw [max_eq_left (by nlinarith : (g₁ - costs) * (rate / 100) ≤ 0),
          max_eq_left (by nlinarith : (g₂ - costs) * (rate / 100) ≤ 0)]
        linarith
  · norm_num [net_after_tax, income_tax, net_before_tax, max_def]

/-- C10 witness: the monotone part at gross incomes 100 ≤ 200, zero costs
and a 28 % tax rate. -/
theorem c10_after_tax_monotone_witness :
    net_after_tax 100 0 28 ≤ net_after_tax 200 0 28 :=
  c10_after_tax_monotone.1 0 28 100 200 (by norm_num) (by norm_num) (by norm_num)

end App
